import Mathlib

/-!
Verification of the animation-delivery core of the holographic chatbot
repository.  The Python sources are shallowly embedded: pure functions
become Lean functions over `ℕ`/`ℤ`/`ℚ` and lists; the HTTP device and the
PIL resampling core are external collaborators, modelled as oracles
(`ℕ → AttemptOutcome` for per-attempt network outcomes, an abstract
`resample` function for pixel resampling constrained by its documented
size contract).  Floating-point arithmetic of the source is rendered as
exact rational arithmetic.
-/

namespace HoloChat

/-! ### Phoneme analyzer
Embeds `src/holographic_chatbot/audio/phoneme_analyzer.py`. -/

/-- The static phoneme→viseme table `PhonemeAnalyzer.VISEME_MAP`. -/
def VISEME_MAP : List (String × String) :=
  [("", "NEUTRAL"),
   ("ɑ", "AA"), ("æ", "AE"), ("ʌ", "AH"), ("ə", "AH"), ("ɛ", "EH"),
   ("eɪ", "EY"), ("i", "IY"), ("ɪ", "IH"), ("oʊ", "OW"), ("ɔ", "AO"),
   ("u", "UW"), ("ʊ", "UH"),
   ("b", "B_P"), ("p", "B_P"), ("m", "B_P"), ("f", "F_V"), ("v", "F_V"),
   ("θ", "TH"), ("ð", "TH"), ("s", "S_Z"), ("z", "S_Z"), ("ʃ", "SH"),
   ("ʒ", "SH"), ("tʃ", "CH"), ("dʒ", "CH"), ("t", "T_D"), ("d", "T_D"),
   ("n", "T_D"), ("l", "L"), ("r", "R"), ("k", "K_G"), ("g", "K_G"),
   ("ŋ", "K_G"), ("w", "W"), ("j", "Y"), ("h", "H")]

/-- The NEUTRAL viseme category, the fallback of `VISEME_MAP.get`. -/
def neutralSym : String := "NEUTRAL"

/-- `self.VISEME_MAP.get(char, "NEUTRAL")`: total table lookup with the
NEUTRAL fallback for symbols outside the static table. -/
def mapSymbolToViseme (symbol : String) : String :=
  (VISEME_MAP.lookup symbol).getD neutralSym

/-- The whitespace test `char in " \n\t"` of `phonemes_to_visemes`. -/
def is_ws_char (c : Char) : Bool :=
  c == ' ' || c == '\n' || c == '\t'

/-- `PhonemeAnalyzer.phonemes_to_visemes`: iterate over the characters of
the phoneme string, skip whitespace, map every other character through the
static table with NEUTRAL fallback. -/
def phonemes_to_visemes : List Char → List String
  | [] => []
  | c :: rest =>
    if is_ws_char c then phonemes_to_visemes rest
    else mapSymbolToViseme (String.mk [c]) :: phonemes_to_visemes rest

/-- A mouth shape: the two blend-weight entries of the static
`shape_map` dictionaries (`mouth_open`, `jaw_open`). -/
structure MouthShape where
  mouth_open : ℚ
  jaw_open : ℚ
  deriving DecidableEq

/-- The static viseme→mouth-shape table of
`PhonemeAnalyzer.get_mouth_shape_for_viseme`. -/
def shape_map : List (String × MouthShape) :=
  [("NEUTRAL", ⟨0, 0⟩), ("AA", ⟨4/5, 3/5⟩), ("AE", ⟨1/2, 2/5⟩),
   ("AH", ⟨3/10, 1/5⟩), ("EH", ⟨2/5, 3/10⟩), ("EY", ⟨3/10, 1/5⟩),
   ("IY", ⟨1/5, 1/10⟩), ("IH", ⟨3/10, 1/5⟩), ("OW", ⟨3/5, 2/5⟩),
   ("AO", ⟨7/10, 1/2⟩), ("UW", ⟨2/5, 1/5⟩), ("UH", ⟨3/10, 1/5⟩),
   ("B_P", ⟨0, 0⟩), ("F_V", ⟨1/5, 1/10⟩), ("TH", ⟨3/10, 1/5⟩),
   ("S_Z", ⟨1/5, 1/10⟩), ("SH", ⟨3/10, 1/5⟩), ("CH", ⟨3/10, 1/5⟩),
   ("T_D", ⟨1/5, 1/10⟩), ("L", ⟨3/10, 1/5⟩), ("R", ⟨2/5, 1/5⟩),
   ("K_G", ⟨1/2, 3/10⟩), ("W", ⟨3/10, 1/10⟩), ("Y", ⟨1/5, 1/10⟩),
   ("H", ⟨2/5, 3/10⟩)]

/-- `shape_map.get(viseme, {"mouth_open": 0.0, "jaw_open": 0.0})`. -/
def get_mouth_shape_for_viseme (viseme : String) : MouthShape :=
  (shape_map.lookup viseme).getD ⟨0, 0⟩

/-- `PhonemeAnalyzer.analyze_text_for_animation`, taken from the point
where the viseme list has been computed (the phonemizer call itself is an
external collaborator): the keyframe scheduler.  Empty viseme list: one
keyframe at t = 0 with the all-zero mouth shape; otherwise keyframe `i`
is at `i * (duration / len(visemes))` with the static-table mouth shape.
No validation of `duration` is performed, exactly as in the source. -/
def analyze_text_for_animation (visemes : List String) (duration : ℚ) :
    List (ℚ × MouthShape) :=
  if visemes = [] then [(0, ⟨0, 0⟩)]
  else
    visemes.enum.map
      (fun p => ((p.1 : ℚ) * (duration / (visemes.length : ℚ)),
        get_mouth_shape_for_viseme p.2))

/-! ### Frame converter
Embeds `src/holographic_chatbot/fan/frame_converter.py`.  A frame is an
`height × width × 3` pixel buffer.  PIL's resampling core (`Image.resize`)
is an external collaborator `resample`; the size arithmetic of
`Image.thumbnail` (aspect-preserving, never enlarging) is embedded
exactly, with PIL's float arithmetic rendered over `ℚ`. -/

/-- A pixel buffer of shape `(height, width, 3)`; `data y x` is the RGB
triple at row `y`, column `x` (the third dimension of the numpy array is
the triple, so every frame has exactly 3 channels by construction). -/
structure Frame where
  height : ℕ
  width : ℕ
  data : ℕ → ℕ → ℕ × ℕ × ℕ

/-- PIL `Image.thumbnail.round_aspect`: chooses between floor and ceil of
`number` by the given key (ties to floor, as Python `min`), then bounds
below by 1. -/
def round_aspect (key : ℤ → ℚ) (number : ℚ) : ℤ :=
  max (if key ⌈number⌉ < key ⌊number⌋ then ⌈number⌉ else ⌊number⌋) 1

/-- The size computed by PIL `Image.thumbnail` for an image of PIL size
`(w, h)` (width, height) and a requested box `(x, y)`, in the branch where
the image does not already fit in the box.  `aspect = w / h`. -/
def thumbnail_size (w h x y : ℕ) : ℕ × ℕ :=
  if (w : ℚ) / h ≤ (x : ℚ) / y then
    ((round_aspect (fun n => |(w : ℚ) / h - (n : ℚ) / y|) ((y : ℚ) * w / h)).toNat,
      y)
  else
    (x,
      (round_aspect (fun n => if n = 0 then 0 else |(w : ℚ) / h - (x : ℚ) / n|)
        ((x : ℚ) * h / w)).toNat)

/-- `FrameConverter.resize_frame`.  `size` is `(width, height)` in PIL
order.  With `maintain_aspect` (the default used by
`optimize_for_display`), PIL `Image.thumbnail` is applied: an image that
already fits inside `size` is returned unchanged, otherwise it is
resampled to the aspect-preserving `thumbnail_size`.  Without it the
image is resampled to exactly `size`. -/
def resize_frame (resample : Frame → ℕ → ℕ → Frame) (f : Frame)
    (size : ℕ × ℕ) (maintain_aspect : Bool) : Frame :=
  if maintain_aspect then
    if f.width ≤ size.1 ∧ f.height ≤ size.2 then f
    else
      let s := thumbnail_size f.width f.height size.1 size.2
      resample f s.1 s.2
  else resample f size.1 size.2

/-- One channel of PIL `Image.blend` for `0 ≤ alpha ≤ 1`:
`in1 + alpha * (in2 - in1)`, cast to an 8-bit value (the result is within
`[0, 255]`, so the cast is plain truncation). -/
def blend_chan (a b : ℕ) (alpha : ℚ) : ℕ :=
  (⌊(a : ℚ) + alpha * ((b : ℚ) - (a : ℚ))⌋).toNat

/-- One channel of PIL `Image.blend` outside `[0, 1]` (extrapolation):
same formula with clipping to `[0, 255]`. -/
def blend_chan_clip (a b : ℕ) (alpha : ℚ) : ℕ :=
  min 255 (⌊(a : ℚ) + alpha * ((b : ℚ) - (a : ℚ))⌋).toNat

/-- Per-pixel `Image.blend`. -/
def blend_pix (p q : ℕ × ℕ × ℕ) (alpha : ℚ) : ℕ × ℕ × ℕ :=
  (blend_chan p.1 q.1 alpha, blend_chan p.2.1 q.2.1 alpha,
    blend_chan p.2.2 q.2.2 alpha)

/-- Per-pixel `Image.blend`, extrapolation branch. -/
def blend_pix_clip (p q : ℕ × ℕ × ℕ) (alpha : ℚ) : ℕ × ℕ × ℕ :=
  (blend_chan_clip p.1 q.1 alpha, blend_chan_clip p.2.1 q.2.1 alpha,
    blend_chan_clip p.2.2 q.2.2 alpha)

/-- PIL `Image.blend(im1, im2, alpha)` (C `Blend.c`): `alpha = 0` copies
`im1`, `alpha = 1` copies `im2`, `0 < alpha < 1` interpolates, any other
`alpha` extrapolates with clipping.  The output buffer takes `im1`'s
size, as in `ImagingBlend`; both call sites below pass images of equal
size. -/
def blend (im1 im2 : Frame) (alpha : ℚ) : Frame :=
  if alpha = 0 then im1
  else if alpha = 1 then im2
  else if 0 ≤ alpha ∧ alpha ≤ 1 then
    ⟨im1.height, im1.width, fun y x => blend_pix (im1.data y x) (im2.data y x) alpha⟩
  else
    ⟨im1.height, im1.width, fun y x => blend_pix_clip (im1.data y x) (im2.data y x) alpha⟩

/-- `FrameConverter.enhance_brightness`: PIL `ImageEnhance.Brightness`,
i.e. `Image.blend(black, image, factor)` with a black degenerate image of
the same size. -/
def enhance_brightness (f : Frame) (factor : ℚ) : Frame :=
  blend ⟨f.height, f.width, fun _ _ => (0, 0, 0)⟩ f factor

/-- PIL RGB→L conversion of one pixel: `L24(rgb) >> 16` with
`L24 = 19595 R + 38470 G + 7471 B + 0x8000`. -/
def luma (p : ℕ × ℕ × ℕ) : ℕ :=
  (19595 * p.1 + 38470 * p.2.1 + 7471 * p.2.2 + 32768) / 65536

/-- Sum of the L channel over the whole image. -/
def luma_sum (f : Frame) : ℕ :=
  ((List.range f.height).map
    (fun y => ((List.range f.width).map (fun x => luma (f.data y x))).sum)).sum

/-- `int(ImageStat.Stat(image.convert("L")).mean[0] + 0.5)`: the rounded
mean luminance used by `ImageEnhance.Contrast`. -/
def image_mean (f : Frame) : ℕ :=
  (⌊(luma_sum f : ℚ) / ((f.height : ℚ) * (f.width : ℚ)) + 1/2⌋).toNat

/-- `FrameConverter.enhance_contrast`: PIL `ImageEnhance.Contrast`, i.e.
`Image.blend(gray, image, factor)` against the constant mean-luminance
degenerate image. -/
def enhance_contrast (f : Frame) (factor : ℚ) : Frame :=
  blend ⟨f.height, f.width, fun _ _ => (image_mean f, image_mean f, image_mean f)⟩
    f factor

/-- One channel of the `ImageFilter.SHARPEN` 3×3 kernel at an interior
pixel `(y, x)`: kernel `(-2 … 32 … -2)`, scale 16, offset 0, result
rounded and clipped to `[0, 255]`. -/
def sharpen_at (chan : ℕ × ℕ × ℕ → ℕ) (f : Frame) (y x : ℕ) : ℕ :=
  let v : ℕ → ℕ → ℤ := fun dy dx => (chan (f.data (y - 1 + dy) (x - 1 + dx)) : ℤ)
  let s : ℤ := 32 * v 1 1 -
    2 * (v 0 0 + v 0 1 + v 0 2 + v 1 0 + v 1 2 + v 2 0 + v 2 1 + v 2 2)
  min 255 (⌊(s : ℚ) / 16 + 1/2⌋).toNat

/-- The sharpened RGB triple at an interior pixel. -/
def sharpen_pix (f : Frame) (y x : ℕ) : ℕ × ℕ × ℕ :=
  (sharpen_at (fun p => p.1) f y x, sharpen_at (fun p => p.2.1) f y x,
    sharpen_at (fun p => p.2.2) f y x)

/-- `FrameConverter.apply_sharpen`: PIL `ImageFilter.SHARPEN`.  An image
smaller than the 3×3 kernel is returned as a copy (C `ImagingFilter`);
border pixels are copied, interior pixels are convolved. -/
def apply_sharpen (f : Frame) : Frame :=
  if f.height < 3 ∨ f.width < 3 then f
  else
    ⟨f.height, f.width, fun y x =>
      if y = 0 ∨ y = f.height - 1 ∨ x = 0 ∨ x = f.width - 1 then f.data y x
      else sharpen_pix f y x⟩

/-- `FrameConverter.optimize_for_display`: resize to the configured
target size `(tw, th)` = (`fan_resolution_width`, `fan_resolution_height`)
with the default `maintain_aspect = True`, then brightness, then
contrast, then optional sharpening. -/
def optimize_for_display (resample : Frame → ℕ → ℕ → Frame) (tw th : ℕ)
    (f : Frame) (brightness_factor contrast_factor : ℚ) (sharpen : Bool) :
    Frame :=
  let o1 := resize_frame resample f (tw, th) true
  let o2 := enhance_brightness o1 brightness_factor
  let o3 := enhance_contrast o2 contrast_factor
  if sharpen then apply_sharpen o3 else o3

/-! ### Fan API client
Embeds `src/holographic_chatbot/fan/api_client.py`.  The device is an
oracle giving the outcome of each loop iteration of `send_frame`: either
the PNG encoding raises (caught by the bare `except Exception`, which
breaks the loop), or an HTTP POST is issued and yields a status code or a
`requests.RequestException`.  Wall-clock sleeps are recorded as a trace
of their requested durations. -/

/-- Outcome of one `session.post` call. -/
inductive PostOutcome where
  | status : ℕ → PostOutcome
  | requestError : PostOutcome
  deriving DecidableEq

/-- Outcome of one iteration of the `send_frame` retry loop. -/
inductive AttemptOutcome where
  | post : PostOutcome → AttemptOutcome
  | encodeError : AttemptOutcome
  deriving DecidableEq

/-- The `FanAPIError` exception, by raise site. -/
inductive FanAPIError where
  | sendFailed : ℕ → FanAPIError
  | fileNotFound : FanAPIError
  | uploadFailed : FanAPIError
  deriving DecidableEq

/-- Observable behaviour of one `send_frame` (or `send_frame_from_file`)
call: the returned value or raised exception, the number of HTTP POSTs
issued, the backoff sleeps requested (seconds, in order), and the
increment applied to the client's `frames_sent` counter. -/
structure SendTrace where
  outcome : Except FanAPIError Bool
  attempts : ℕ
  sleeps : List ℚ
  framesSentDelta : ℕ

/-- The retry loop of `FanAPIClient.send_frame`: `remaining` iterations
are left and the current 0-based loop index is `attempt` (the top-level
call has `remaining = retry_count`, `attempt = 0`).  A 200 status returns
`True` and bumps `frames_sent`; any other status logs and retries with no
sleep; a `RequestException` sleeps `0.5 * (attempt + 1)` and retries when
it is not the final attempt; any other exception breaks the loop.  A loop
that finishes without returning raises `FanAPIError`. -/
def send_frame_go (device : ℕ → AttemptOutcome) (retry_count : ℕ) :
    ℕ → ℕ → SendTrace
  | 0, _ => ⟨.error (.sendFailed retry_count), 0, [], 0⟩
  | remaining + 1, attempt =>
    match device attempt with
    | .encodeError => ⟨.error (.sendFailed retry_count), 0, [], 0⟩
    | .post (.status code) =>
      if code = 200 then ⟨.ok true, 1, [], 1⟩
      else
        let t := send_frame_go device retry_count remaining (attempt + 1)
        ⟨t.outcome, t.attempts + 1, t.sleeps, t.framesSentDelta⟩
    | .post .requestError =>
      if attempt < retry_count - 1 then
        let t := send_frame_go device retry_count remaining (attempt + 1)
        ⟨t.outcome, t.attempts + 1, (1/2 : ℚ) * ((attempt : ℚ) + 1) :: t.sleeps,
          t.framesSentDelta⟩
      else ⟨.error (.sendFailed retry_count), 1, [], 0⟩

/-- `FanAPIClient.send_frame(frame, retry_count)`. -/
def send_frame (device : ℕ → AttemptOutcome) (retry_count : ℕ) : SendTrace :=
  send_frame_go device retry_count retry_count 0

/-- True when the `send_frame` call raised `FanAPIError`. -/
def failed (t : SendTrace) : Bool :=
  match t.outcome with
  | .error _ => true
  | .ok _ => false

/-- Observable behaviour of one `stream_frames` call: the returned count
of successfully sent frames, the frame indices for which `send_frame` was
invoked (in invocation order), the total number of HTTP POSTs, and the
total increment of `frames_sent`. -/
structure StreamTrace where
  sent : ℕ
  attemptedFrames : List ℕ
  networkAttempts : ℕ
  framesSentDelta : ℕ
  deriving DecidableEq

/-- One iteration of the `stream_frames` loop at frame index `i`:
`send_frame(frame)` with the default retry count 3; a `True` return bumps
the success counter, a raised `FanAPIError` is caught and the loop
continues with the next frame. -/
def stream_step (device : ℕ → ℕ → AttemptOutcome) (acc : StreamTrace)
    (i : ℕ) : StreamTrace :=
  let t := send_frame (device i) 3
  match t.outcome with
  | .ok b =>
    ⟨acc.sent + (if b then 1 else 0), acc.attemptedFrames ++ [i],
      acc.networkAttempts + t.attempts, acc.framesSentDelta + t.framesSentDelta⟩
  | .error _ =>
    ⟨acc.sent, acc.attemptedFrames ++ [i],
      acc.networkAttempts + t.attempts, acc.framesSentDelta + t.framesSentDelta⟩

/-- `FanAPIClient.stream_frames(frames)`: iterate the frames in index
order and return the number successfully sent. -/
def stream_frames (device : ℕ → ℕ → AttemptOutcome) (frames : List Frame) :
    StreamTrace :=
  (List.range frames.length).foldl (stream_step device) ⟨0, [], 0, 0⟩

/-- 1 when `send_frame` with the default retry count 3 returns `True`
for the given per-frame device behaviour, 0 when it raises: the
per-frame contribution to both the success count of `stream_frames` and
the `frames_sent` counter. -/
def frame_success (device_i : ℕ → AttemptOutcome) : ℕ :=
  match (send_frame device_i 3).outcome with
  | .ok true => 1
  | _ => 0

/-- A test image passed to `test_connection`: whether the file exists and
the outcome of its single upload POST. -/
structure FileInput where
  present : Bool
  outcome : PostOutcome

/-- `FanAPIClient.send_frame_from_file`: missing file raises; a 200
status returns `True` and bumps `frames_sent`; any other status returns
`False`; a `RequestException` is re-raised wrapped in `FanAPIError`. -/
def send_frame_from_file (file : FileInput) : SendTrace :=
  if file.present = false then ⟨.error .fileNotFound, 0, [], 0⟩
  else
    match file.outcome with
    | .status code =>
      if code = 200 then ⟨.ok true, 1, [], 1⟩ else ⟨.ok false, 1, [], 0⟩
    | .requestError => ⟨.error .uploadFailed, 1, [], 0⟩

/-- `FanAPIClient.test_connection(test_image_path)`: deliver a synthetic
test frame (`test_image_path = None`) or the given file; return the
boolean result, catching `FanAPIError` as `False`. -/
def test_connection (device : ℕ → AttemptOutcome)
    (testImage : Option FileInput) : Bool :=
  let t :=
    match testImage with
    | none => send_frame device 3
    | some file => send_frame_from_file file
  match t.outcome with
  | .ok b => b
  | .error _ => false

/-- The underlying test-frame delivery of `test_connection` succeeded:
the corresponding send returned `True`. -/
def delivery_succeeded (device : ℕ → AttemptOutcome)
    (testImage : Option FileInput) : Prop :=
  match testImage with
  | none => (send_frame device 3).outcome = .ok true
  | some file => (send_frame_from_file file).outcome = .ok true

/-! ### Animation orchestrator
Embeds `HolographicChatbot._animate_response` from
`src/holographic_chatbot/main.py`.  The 3D renderer is the collaborator
`render(text, angle)`. -/

/-- Python `int(...)` on a number: truncation toward zero. -/
def py_int (q : ℚ) : ℤ :=
  if 0 ≤ q then ⌊q⌋ else -⌊-q⌋

/-- `HolographicChatbot._animate_response`: compute
`num_frames = int(fan_frame_rate * duration)`, render frame `i` at angle
`(360 / num_frames) * i`, pass it through `optimize_for_display` with the
source defaults (brightness 1.2, contrast 1.1, sharpen), and collect the
frames in order (they are then handed to `stream_frames`). -/
def animate_response_frames (resample : Frame → ℕ → ℕ → Frame) (tw th : ℕ)
    (render : String → ℚ → Frame) (frame_rate : ℕ) (text : String)
    (duration : ℚ) : List Frame :=
  let num_frames : ℤ := py_int ((frame_rate : ℚ) * duration)
  (List.range num_frames.toNat).map (fun (i : ℕ) =>
    optimize_for_display resample tw th
      (render text ((360 / (num_frames : ℚ)) * (i : ℚ))) (6/5) (11/10) true)

/-! ### Concrete instances used by witnesses and counterexamples -/

/-- A resampling collaborator honouring PIL's size contract, with
constant pixel content. -/
def constResample : Frame → ℕ → ℕ → Frame :=
  fun _ w h => ⟨h, w, fun _ _ => (0, 0, 0)⟩

/-- A renderer collaborator producing a constant 300×200 buffer. -/
def constRender : String → ℚ → Frame :=
  fun _ _ => ⟨300, 200, fun _ _ => (0, 0, 0)⟩

/-- A 128×128 input frame, smaller than the default 256×256 target. -/
def small_frame : Frame :=
  ⟨128, 128, fun _ _ => (0, 0, 0)⟩

/-- A 300×200 input frame, larger than the default 256×256 target. -/
def big_frame : Frame :=
  ⟨300, 200, fun _ _ => (0, 0, 0)⟩

/-- A device answering every upload with HTTP 500. -/
def dev500 : ℕ → AttemptOutcome :=
  fun _ => .post (.status 500)

/-- A device answering every upload with HTTP 200. -/
def dev200 : ℕ → AttemptOutcome :=
  fun _ => .post (.status 200)

/-- A streaming device for which exactly the frames at indices 2 and 7
fail (every attempt rejected), all others succeed immediately. -/
def devC2 : ℕ → ℕ → AttemptOutcome :=
  fun i _ => if i = 2 ∨ i = 7 then .post (.status 500) else .post (.status 200)

/-- An "H" symbol list element. -/
def hSym : String := "H"

/-- An "AH" symbol list element. -/
def ahSym : String := "AH"

/-- The empty string (used as a `getD` default). -/
def emptySym : String := ""

/-- A symbol outside the static viseme table. -/
def symQ : String := "Q"

/-- A sample response text. -/
def sampleText : String := "Hi"

/-! ## Helper lemmas -/

theorem lookup_mem_values {l : List (String × String)} {k v : String}
    (h : l.lookup k = some v) : v ∈ l.map Prod.snd := by
  induction l with
  | nil => simp [List.lookup] at h
  | cons a t ih =>
    rw [List.lookup] at h
    split at h
    · cases h; exact List.mem_map_of_mem _ (List.mem_cons_self _ _)
    · exact List.mem_cons_of_mem _ (ih h)

theorem mapSymbolToViseme_mem_values (s : String) :
    mapSymbolToViseme s ∈ neutralSym :: VISEME_MAP.map Prod.snd := by
  unfold mapSymbolToViseme
  cases h : VISEME_MAP.lookup s with
  | none => simp
  | some v => simpa using Or.inr (lookup_mem_values h)

theorem phonemes_to_visemes_eq_filter_map (ps : List Char) :
    phonemes_to_visemes ps =
      (ps.filter (fun c => !(is_ws_char c))).map
        (fun c => mapSymbolToViseme (String.mk [c])) := by
  induction ps with
  | nil => rfl
  | cons c rest ih =>
    by_cases h : is_ws_char c = true
    · simp [phonemes_to_visemes, h, List.filter_cons, ih]
    · simp [phonemes_to_visemes, h, List.filter_cons, ih]

theorem analyze_get_closed (V : List String) (d : ℚ) (hV : V ≠ []) (i : ℕ)
    (hi : i < V.length) :
    (analyze_text_for_animation V d).get? i =
      some ((i : ℚ) * (d / (V.length : ℚ)),
        get_mouth_shape_for_viseme (V.getD i emptySym)) := by
  have hx : V.get? i = some (V.getD i emptySym) := by
    cases h : V.get? i with
    | none =>
      have := List.get?_eq_none.mp h
      omega
    | some a => rw [List.getD_eq_get?, h]; rfl
  unfold analyze_text_for_animation
  rw [if_neg hV, List.get?_map, List.get?_enum, hx]
  rfl

theorem analyze_length (V : List String) (d : ℚ) (hV : V ≠ []) :
    (analyze_text_for_animation V d).length = V.length := by
  simp [analyze_text_for_animation, hV]

/-! ## Claim theorems -/

/-- C4: for non-empty `V` and `d > 0`, `analyze_text_for_animation`
(the keyframe scheduler) yields exactly `len(V)` keyframes, the `i`-th at
timestamp `i * (d / len(V))` (so the first timestamp is 0, timestamps are
non-decreasing and evenly spaced by `d / len(V)`) with mouth shape the
static-table lookup for `V[i]` (all-zero fallback for unknown visemes);
for the empty viseme list and any `d ≥ 0` it yields exactly one keyframe
at t = 0 with the all-zero mouth shape. -/
theorem analyze_text_timeline (V : List String) (d : ℚ) (hV : V ≠ [])
    (hd : 0 < d) :
    (analyze_text_for_animation V d).length = V.length ∧
    (∀ i, i < V.length →
      (analyze_text_for_animation V d).get? i =
        some ((i : ℚ) * (d / (V.length : ℚ)),
          get_mouth_shape_for_viseme (V.getD i emptySym))) ∧
    (analyze_text_for_animation V d).head? =
      some (0, get_mouth_shape_for_viseme (V.getD 0 emptySym)) ∧
    (∀ i a b, (analyze_text_for_animation V d).get? i = some a →
      (analyze_text_for_animation V d).get? (i + 1) = some b →
      b.1 - a.1 = d / (V.length : ℚ)) ∧
    List.Pairwise (fun a b : ℚ × MouthShape => a.1 ≤ b.1)
      (analyze_text_for_animation V d) ∧
    (∀ v, shape_map.lookup v = none → get_mouth_shape_for_viseme v = ⟨0, 0⟩) ∧
    (∀ d2 : ℚ, 0 ≤ d2 → analyze_text_for_animation [] d2 = [(0, ⟨0, 0⟩)]) := by
  have hlen := analyze_length V d hV
  have hVpos : 0 < V.length := List.length_pos.mpr hV
  have hstep : 0 < d / (V.length : ℚ) := by positivity
  have hbound : ∀ {i : ℕ} {a : ℚ × MouthShape},
      (analyze_text_for_animation V d).get? i = some a → i < V.length := by
    intro i a ha
    by_contra hcon
    rw [List.get?_eq_none.mpr (by omega)] at ha
    exact Option.noConfusion ha
  refine ⟨hlen, fun i hi => analyze_get_closed V d hV i hi, ?_, ?_, ?_, ?_, ?_⟩
  · rw [← List.get?_zero, analyze_get_closed V d hV 0 hVpos]
    norm_num
  · intro i a b ha hb
    have hi1 := hbound hb
    have hi : i < V.length := by omega
    rw [analyze_get_closed V d hV i hi] at ha
    rw [analyze_get_closed V d hV (i + 1) hi1] at hb
    cases ha; cases hb
    push_cast
    ring
  · rw [List.pairwise_iff_get]
    intro i j hij
    have hi : (i : ℕ) < V.length := hlen ▸ i.isLt
    have hj : (j : ℕ) < V.length := hlen ▸ j.isLt
    have hgi := analyze_get_closed V d hV i hi
    have hgj := analyze_get_closed V d hV j hj
    rw [List.get?_eq_get i.isLt] at hgi
    rw [List.get?_eq_get j.isLt] at hgj
    rw [Option.some.injEq] at hgi hgj
    rw [hgi, hgj]
    exact mul_le_mul_of_nonneg_right (Nat.cast_le.mpr (Nat.le_of_lt hij)) hstep.le
  · intro v h
    unfold get_mouth_shape_for_viseme
    rw [h]
    rfl
  · intro d2 _
    simp [analyze_text_for_animation]

/-- Witness for C4 at `V = ["H", "AH"]`, `d = 2`. -/
theorem analyze_text_timeline_w :
    (analyze_text_for_animation [hSym, ahSym] 2).length = 2 ∧
    (analyze_text_for_animation [hSym, ahSym] 2).get? 1 =
      some ((1 : ℚ) * (2 / (([hSym, ahSym] : List String).length : ℚ)),
        get_mouth_shape_for_viseme (([hSym, ahSym] : List String).getD 1 emptySym)) := by
  have h := analyze_text_timeline [hSym, ahSym] 2 (by decide) (by norm_num)
  exact ⟨h.1, h.2.1 1 (by decide)⟩

/-- C5 counterexample: a negative duration is not rejected; the call
returns a timeline whose keyframe at index 1 has a negative timestamp. -/
theorem analyze_negative_duration_not_rejected :
    (analyze_text_for_animation [hSym, ahSym] (-1)).get? 1 =
      some (((1 : ℕ) : ℚ) * ((-1) / (([hSym, ahSym] : List String).length : ℚ)),
        get_mouth_shape_for_viseme (([hSym, ahSym] : List String).getD 1 emptySym)) ∧
    ((1 : ℕ) : ℚ) * ((-1) / (([hSym, ahSym] : List String).length : ℚ)) < 0 := by
  constructor
  · exact analyze_get_closed [hSym, ahSym] (-1) (by decide) 1 (by decide)
  · norm_num

/-- C5 amended: `analyze_text_for_animation` performs no duration
validation; for `d < 0` and non-empty `V` it still returns `len(V)`
keyframes, all of whose timestamps are ≤ 0 (spaced by the negative step
`d / len(V)`). -/
theorem analyze_negative_duration_behavior (V : List String) (d : ℚ)
    (hV : V ≠ []) (hd : d < 0) :
    (analyze_text_for_animation V d).length = V.length ∧
    ∀ kf ∈ analyze_text_for_animation V d, kf.1 ≤ 0 := by
  refine ⟨analyze_length V d hV, ?_⟩
  intro kf hkf
  rw [analyze_text_for_animation, if_neg hV] at hkf
  obtain ⟨p, hp, rfl⟩ := List.mem_map.mp hkf
  have hstep : d / (V.length : ℚ) ≤ 0 := by
    apply div_nonpos_of_nonpos_of_nonneg hd.le
    positivity
  exact mul_nonpos_iff.mpr (Or.inl ⟨Nat.cast_nonneg _, hstep⟩)

/-- Witness for C5 (amended) at `V = ["H", "AH"]`, `d = -1`. -/
theorem analyze_negative_duration_behavior_w :
    (analyze_text_for_animation [hSym, ahSym] (-1)).length = 2 ∧
    (((1 : ℕ) : ℚ) * ((-1) / (([hSym, ahSym] : List String).length : ℚ)),
      get_mouth_shape_for_viseme (([hSym, ahSym] : List String).getD 1 emptySym)).1
      ≤ 0 := by
  have h := analyze_negative_duration_behavior [hSym, ahSym] (-1) (by decide)
    (by norm_num)
  exact ⟨h.1, h.2 _
    (List.get?_mem (analyze_get_closed [hSym, ahSym] (-1) (by decide) 1 (by decide)))⟩

/-- C7: the symbol→viseme mapping is total with NEUTRAL fallback for
symbols outside the static table; `phonemes_to_visemes` skips whitespace
characters (space, newline, tab), maps every other character 1:1 through
the table, never emits a whitespace symbol, and its output is never
longer than its input. -/
theorem viseme_mapping_total_and_ws_skipped :
    (∀ s : String, VISEME_MAP.lookup s = none →
      mapSymbolToViseme s = neutralSym) ∧
    (∀ ps : List Char,
      phonemes_to_visemes ps =
        (ps.filter (fun c => !(is_ws_char c))).map
          (fun c => mapSymbolToViseme (String.mk [c])) ∧
      (phonemes_to_visemes ps).length ≤ ps.length ∧
      ∀ v ∈ phonemes_to_visemes ps, ¬(v = " " ∨ v = "\n" ∨ v = "\t")) := by
  have hvals : ∀ v ∈ neutralSym :: VISEME_MAP.map Prod.snd,
      ¬(v = " " ∨ v = "\n" ∨ v = "\t") := by decide
  refine ⟨?_, ?_⟩
  · intro s h
    unfold mapSymbolToViseme
    rw [h]
    rfl
  · intro ps
    refine ⟨phonemes_to_visemes_eq_filter_map ps, ?_, ?_⟩
    · rw [phonemes_to_visemes_eq_filter_map ps, List.length_map]
      exact List.length_filter_le _ _
    · intro v hv
      rw [phonemes_to_visemes_eq_filter_map ps] at hv
      obtain ⟨c, _, rfl⟩ := List.mem_map.mp hv
      exact hvals _ (mapSymbolToViseme_mem_values _)

/-- Witness for C7: the unmapped symbol "Q" falls back to NEUTRAL, and a
concrete output element is not whitespace. -/
theorem viseme_mapping_total_and_ws_skipped_w :
    mapSymbolToViseme symQ = neutralSym ∧
    ¬(hSym = " " ∨ hSym = "\n" ∨ hSym = "\t") := by
  refine ⟨viseme_mapping_total_and_ws_skipped.1 symQ (by decide), ?_⟩
  exact (viseme_mapping_total_and_ws_skipped.2 ['h']).2.2 hSym (by decide)

/-! ## Fan API client lemmas -/

theorem send_frame_go_cases (device : ℕ → AttemptOutcome) (rc : ℕ) :
    ∀ rem att,
      ((send_frame_go device rc rem att).outcome = .ok true ∧
        (send_frame_go device rc rem att).framesSentDelta = 1) ∨
      ((send_frame_go device rc rem att).outcome = .error (.sendFailed rc) ∧
        (send_frame_go device rc rem att).framesSentDelta = 0) := by
  intro rem
  induction rem with
  | zero => exact fun att => Or.inr ⟨rfl, rfl⟩
  | succ n ih =>
    intro att
    cases hdev : device att with
    | encodeError => simp [send_frame_go, hdev]
    | post po =>
      cases po with
      | status code =>
        by_cases hc : code = 200
        · simp [send_frame_go, hdev, hc]
        · simpa [send_frame_go, hdev, hc] using ih (att + 1)
      | requestError =>
        by_cases ha : att < rc - 1
        · simpa [send_frame_go, hdev, ha] using ih (att + 1)
        · simp [send_frame_go, hdev, ha]

theorem send_frame_cases (device : ℕ → AttemptOutcome) (rc : ℕ) :
    ((send_frame device rc).outcome = .ok true ∧
      (send_frame device rc).framesSentDelta = 1) ∨
    ((send_frame device rc).outcome = .error (.sendFailed rc) ∧
      (send_frame device rc).framesSentDelta = 0) :=
  send_frame_go_cases device rc rc 0

theorem send_frame_go_all_non200 (device : ℕ → AttemptOutcome) (rc : ℕ)
    (code : ℕ → ℕ) :
    ∀ rem att, (∀ n, n < att + rem → device n = .post (.status (code n))) →
      (∀ n, n < att + rem → code n ≠ 200) →
      (send_frame_go device rc rem att).outcome = .error (.sendFailed rc) ∧
      (send_frame_go device rc rem att).attempts = rem ∧
      (send_frame_go device rc rem att).sleeps = [] := by
  intro rem
  induction rem with
  | zero => exact fun att _ _ => ⟨rfl, rfl, rfl⟩
  | succ n ih =>
    intro att hdev hcode
    have hd := hdev att (by omega)
    have hc := hcode att (by omega)
    have hrec := ih (att + 1) (fun m hm => hdev m (by omega))
      (fun m hm => hcode m (by omega))
    simp [send_frame_go, hd, hc, hrec.1, hrec.2.1, hrec.2.2]

theorem stream_step_fields (device : ℕ → ℕ → AttemptOutcome)
    (acc : StreamTrace) (i : ℕ) :
    (stream_step device acc i).attemptedFrames = acc.attemptedFrames ++ [i] ∧
    (stream_step device acc i).sent = acc.sent + frame_success (device i) ∧
    (stream_step device acc i).framesSentDelta =
      acc.framesSentDelta + frame_success (device i) := by
  rcases send_frame_cases (device i) 3 with ⟨h1, h2⟩ | ⟨h1, h2⟩ <;>
    simp [stream_step, frame_success, h1, h2]

theorem stream_foldl_fields (device : ℕ → ℕ → AttemptOutcome) :
    ∀ (l : List ℕ) (acc : StreamTrace),
      ((l.foldl (stream_step device) acc).attemptedFrames =
        acc.attemptedFrames ++ l) ∧
      ((l.foldl (stream_step device) acc).sent =
        acc.sent + (l.map (fun i => frame_success (device i))).sum) ∧
      ((l.foldl (stream_step device) acc).framesSentDelta =
        acc.framesSentDelta + (l.map (fun i => frame_success (device i))).sum) := by
  intro l
  induction l with
  | nil => intro acc; simp
  | cons x xs ih =>
    intro acc
    have hstep := stream_step_fields device acc x
    have hrec := ih (stream_step device acc x)
    refine ⟨?_, ?_, ?_⟩
    · rw [List.foldl_cons, hrec.1, hstep.1]
      simp
    · rw [List.foldl_cons, hrec.2.1, hstep.2.1, List.map_cons, List.sum_cons]
      omega
    · rw [List.foldl_cons, hrec.2.2, hstep.2.2, List.map_cons, List.sum_cons]
      omega

/-- C1 counterexample: a device answering non-200 on all 3 attempts
triggers no backoff sleep at all — the claimed total backoff of at least
0.5 + 1.0 seconds does not happen (the `time.sleep` sits only in the
`requests.RequestException` handler, which a non-200 response never
enters). -/
theorem send_frame_non200_zero_backoff :
    ¬ ((3 : ℚ)/2 ≤ ((send_frame dev500 3).sleeps).sum) := by
  have h : (send_frame dev500 3).sleeps = [] := rfl
  rw [h]
  norm_num

/-- C1 amended: against a device returning a non-200 status on all 3
attempts, `send_frame` raises `FanAPIError`, performs exactly 3 network
upload attempts, and performs no backoff sleep at all (the linear
`0.5 × attemptNumber` sleep happens only after a network-level
`RequestException` on a non-final attempt). -/
theorem send_frame_all_non200 (device : ℕ → AttemptOutcome) (code : ℕ → ℕ)
    (hdev : ∀ n, n < 3 → device n = .post (.status (code n)))
    (hcode : ∀ n, n < 3 → code n ≠ 200) :
    (send_frame device 3).outcome = .error (.sendFailed 3) ∧
    (send_frame device 3).attempts = 3 ∧
    (send_frame device 3).sleeps = [] := by
  exact send_frame_go_all_non200 device 3 code 3 0
    (fun n hn => hdev n (by omega)) (fun n hn => hcode n (by omega))

/-- Witness for C1 (amended) at the all-500 device. -/
theorem send_frame_all_non200_w :
    (send_frame dev500 3).outcome = .error (.sendFailed 3) ∧
    (send_frame dev500 3).attempts = 3 ∧
    (send_frame dev500 3).sleeps = [] :=
  send_frame_all_non200 dev500 (fun _ => 500) (fun _ _ => rfl)
    (fun _ _ => by norm_num)

/-- C2: `stream_frames` attempts every frame in index order and absorbs
per-frame delivery failures (its result is a total count, no exception
escapes); when exactly the frames at indices 2 and 7 of a 10-frame
sequence fail after their internal retries, it still attempts all 10
frames in order and returns 8 successfully sent out of 10. -/
theorem stream_frames_best_effort (device : ℕ → ℕ → AttemptOutcome)
    (frames : List Frame) (hlen : frames.length = 10)
    (hfail : ∀ i, i < 10 →
      (failed (send_frame (device i) 3) = true ↔ (i = 2 ∨ i = 7))) :
    (stream_frames device frames).sent = 8 ∧
    (stream_frames device frames).attemptedFrames = List.range 10 ∧
    (∀ (dev2 : ℕ → ℕ → AttemptOutcome) (fr2 : List Frame),
      (stream_frames dev2 fr2).attemptedFrames = List.range fr2.length) := by
  have hgen : ∀ (dev2 : ℕ → ℕ → AttemptOutcome) (fr2 : List Frame),
      (stream_frames dev2 fr2).attemptedFrames = List.range fr2.length := by
    intro dev2 fr2
    have h := (stream_foldl_fields dev2 (List.range fr2.length) ⟨0, [], 0, 0⟩).1
    unfold stream_frames
    rw [h]
    rfl
  have hfs : ∀ i, i < 10 →
      frame_success (device i) = if i = 2 ∨ i = 7 then 0 else 1 := by
    intro i hi
    rcases send_frame_cases (device i) 3 with ⟨h1, _⟩ | ⟨h1, _⟩
    · have hfl : failed (send_frame (device i) 3) = false := by
        simp [failed, h1]
      have hno : ¬(i = 2 ∨ i = 7) := by
        intro hc
        have := (hfail i hi).mpr hc
        rw [hfl] at this
        exact Bool.noConfusion this
      simp [frame_success, h1, hno]
    · have hfl : failed (send_frame (device i) 3) = true := by
        simp [failed, h1]
      have hc := (hfail i hi).mp hfl
      simp [frame_success, h1, hc]
  refine ⟨?_, ?_, hgen⟩
  · have h := (stream_foldl_fields device (List.range frames.length)
      ⟨0, [], 0, 0⟩).2.1
    unfold stream_frames
    rw [h, hlen]
    have hmap : (List.range 10).map (fun i => frame_success (device i)) =
        (List.range 10).map (fun i => if i = 2 ∨ i = 7 then 0 else 1) := by
      apply List.map_congr
      intro a ha
      exact hfs a (List.mem_range.mp ha)
    rw [hmap]
    decide
  · have h := hgen device frames
    rw [hlen] at h
    exact h

/-- Witness for C2 at a concrete device failing exactly at indices 2 and
7 over 10 frames. -/
theorem stream_frames_best_effort_w :
    (stream_frames devC2 (List.replicate 10 small_frame)).sent = 8 ∧
    (stream_frames devC2 (List.replicate 10 small_frame)).attemptedFrames =
      List.range 10 := by
  have h := stream_frames_best_effort devC2 (List.replicate 10 small_frame)
    (by simp) (by decide)
  exact ⟨h.1, h.2.1⟩

/-- C9: `test_connection` always returns a boolean, `True` exactly when
the underlying test-frame delivery succeeded; a delivery failure
(`FanAPIError`) is caught at the health-check boundary and reported as
`False`, never re-raised. -/
theorem test_connection_boolean (device : ℕ → AttemptOutcome)
    (ti : Option FileInput) :
    test_connection device ti = true ↔ delivery_succeeded device ti := by
  cases ti with
  | none =>
    rcases send_frame_cases device 3 with ⟨h1, _⟩ | ⟨h1, _⟩ <;>
      simp [test_connection, delivery_succeeded, h1]
  | some file =>
    by_cases hp : file.present = false
    · simp [test_connection, delivery_succeeded, send_frame_from_file, hp]
    · cases ho : file.outcome with
      | status code =>
        by_cases hc : code = 200 <;>
          simp [test_connection, delivery_succeeded, send_frame_from_file,
            hp, ho, hc]
      | requestError =>
        simp [test_connection, delivery_succeeded, send_frame_from_file,
          hp, ho]

/-- C10: the `frames_sent` counter counts exactly the confirmed HTTP-200
sends — a successful `send_frame` adds exactly 1, a failed one adds 0
(so the counter is non-decreasing across every operation); after
`stream_frames` returns `n`, the counter has grown by exactly `n`, with
`n` at most the number of frames, and the empty sequence yields `n = 0`
with no network attempt. -/
theorem frames_sent_accounting :
    (∀ (device : ℕ → AttemptOutcome) (rc : ℕ),
      (send_frame device rc).outcome = .ok true →
      (send_frame device rc).framesSentDelta = 1) ∧
    (∀ (device : ℕ → AttemptOutcome) (rc : ℕ) (e : FanAPIError),
      (send_frame device rc).outcome = .error e →
      (send_frame device rc).framesSentDelta = 0) ∧
    (∀ (device : ℕ → ℕ → AttemptOutcome) (frames : List Frame),
      (stream_frames device frames).framesSentDelta =
        (stream_frames device frames).sent ∧
      (stream_frames device frames).sent ≤ frames.length) ∧
    (∀ device : ℕ → ℕ → AttemptOutcome,
      stream_frames device ([] : List Frame) = ⟨0, [], 0, 0⟩) := by
  refine ⟨?_, ?_, ?_, fun device => rfl⟩
  · intro device rc h
    rcases send_frame_cases device rc with ⟨_, h2⟩ | ⟨h1, _⟩
    · exact h2
    · rw [h1] at h
      exact Except.noConfusion h
  · intro device rc e h
    rcases send_frame_cases device rc with ⟨h1, _⟩ | ⟨_, h2⟩
    · rw [h1] at h
      exact Except.noConfusion h
    · exact h2
  · intro device frames
    have h := stream_foldl_fields device (List.range frames.length) ⟨0, [], 0, 0⟩
    have hbound : ∀ l : List ℕ,
        (l.map (fun i => frame_success (device i))).sum ≤ l.length := by
      intro l
      induction l with
      | nil => simp
      | cons x xs ih =>
        rw [List.map_cons, List.sum_cons, List.length_cons]
        have hfs : frame_success (device x) ≤ 1 := by
          rcases send_frame_cases (device x) 3 with ⟨h1, _⟩ | ⟨h1, _⟩ <;>
            simp [frame_success, h1]
        omega
    constructor
    · unfold stream_frames
      rw [h.2.2, h.2.1]
    · unfold stream_frames
      rw [h.2.1]
      have := hbound (List.range frames.length)
      simpa using this

/-- Witness for C10: a first-attempt-200 device yields delta exactly 1. -/
theorem frames_sent_accounting_w :
    (send_frame dev200 3).framesSentDelta = 1 :=
  frames_sent_accounting.1 dev200 3 rfl

/-! ## Frame converter lemmas -/

theorem enhance_brightness_height (f : Frame) (q : ℚ) :
    (enhance_brightness f q).height = f.height := by
  unfold enhance_brightness blend
  split_ifs <;> rfl

theorem enhance_brightness_width (f : Frame) (q : ℚ) :
    (enhance_brightness f q).width = f.width := by
  unfold enhance_brightness blend
  split_ifs <;> rfl

theorem enhance_contrast_height (f : Frame) (q : ℚ) :
    (enhance_contrast f q).height = f.height := by
  unfold enhance_contrast blend
  split_ifs <;> rfl

theorem enhance_contrast_width (f : Frame) (q : ℚ) :
    (enhance_contrast f q).width = f.width := by
  unfold enhance_contrast blend
  split_ifs <;> rfl

theorem apply_sharpen_height (f : Frame) :
    (apply_sharpen f).height = f.height := by
  unfold apply_sharpen
  split_ifs <;> rfl

theorem apply_sharpen_width (f : Frame) :
    (apply_sharpen f).width = f.width := by
  unfold apply_sharpen
  split_ifs <;> rfl

theorem optimize_for_display_dims (resample : Frame → ℕ → ℕ → Frame)
    (tw th : ℕ) (f : Frame) (bf cf : ℚ) (sh : Bool) :
    (optimize_for_display resample tw th f bf cf sh).width =
      (resize_frame resample f (tw, th) true).width ∧
    (optimize_for_display resample tw th f bf cf sh).height =
      (resize_frame resample f (tw, th) true).height := by
  cases sh <;>
    simp [optimize_for_display, apply_sharpen_width, apply_sharpen_height,
      enhance_contrast_width, enhance_contrast_height,
      enhance_brightness_width, enhance_brightness_height]

theorem round_aspect_le (key : ℤ → ℚ) (q : ℚ) (b : ℕ) (hb : 1 ≤ b)
    (hq : q ≤ (b : ℚ)) : (round_aspect key q).toNat ≤ b := by
  rw [Int.toNat_le]
  unfold round_aspect
  have hceil : ⌈q⌉ ≤ (b : ℤ) := Int.ceil_le.mpr (by exact_mod_cast hq)
  have hfloor : ⌊q⌋ ≤ (b : ℤ) := le_trans (Int.floor_le_ceil q) hceil
  have hb' : (1 : ℤ) ≤ (b : ℤ) := by exact_mod_cast hb
  apply max_le _ hb'
  split_ifs
  · exact hceil
  · exact hfloor

theorem thumbnail_size_le (w h x y : ℕ) (hw : 1 ≤ w) (hh : 1 ≤ h)
    (hx : 1 ≤ x) (hy : 1 ≤ y) :
    (thumbnail_size w h x y).1 ≤ x ∧ (thumbnail_size w h x y).2 ≤ y := by
  have hh0 : (0 : ℚ) < h := by positivity
  have hw0 : (0 : ℚ) < w := by positivity
  have hy0 : (0 : ℚ) < y := by positivity
  unfold thumbnail_size
  by_cases hc : (w : ℚ) / h ≤ (x : ℚ) / y
  · rw [if_pos hc]
    refine ⟨?_, le_refl y⟩
    apply round_aspect_le _ _ _ hx
    have hcross : (w : ℚ) * y ≤ (x : ℚ) * h := (div_le_div_iff hh0 hy0).mp hc
    rw [div_le_iff hh0]
    nlinarith [hcross]
  · rw [if_neg hc]
    refine ⟨le_refl x, ?_⟩
    apply round_aspect_le _ _ _ hy
    push_neg at hc
    have hcross : (x : ℚ) * h ≤ (w : ℚ) * y :=
      le_of_lt ((div_lt_div_iff hy0 hh0).mp hc)
    rw [div_le_iff hw0]
    nlinarith [hcross]

theorem resize_frame_of_fits (resample : Frame → ℕ → ℕ → Frame) (g : Frame)
    (tw th : ℕ) (hfit : g.width ≤ tw ∧ g.height ≤ th) :
    resize_frame resample g (tw, th) true = g := by
  simp [resize_frame, hfit.1, hfit.2]

theorem resize_frame_dims (resample : Frame → ℕ → ℕ → Frame)
    (hres : ∀ f w h, (resample f w h).width = w ∧ (resample f w h).height = h)
    (f : Frame) (tw th : ℕ) (htw : 1 ≤ tw) (hth : 1 ≤ th)
    (hw : 1 ≤ f.width) (hh : 1 ≤ f.height) :
    (resize_frame resample f (tw, th) true).width ≤ tw ∧
    (resize_frame resample f (tw, th) true).height ≤ th ∧
    (f.width ≤ tw ∧ f.height ≤ th →
      resize_frame resample f (tw, th) true = f) := by
  by_cases hfit : f.width ≤ tw ∧ f.height ≤ th
  · rw [resize_frame_of_fits resample f tw th hfit]
    exact ⟨hfit.1, hfit.2, fun _ => rfl⟩
  · have hthumb := thumbnail_size_le f.width f.height tw th hw hh htw hth
    have hstep :
        resize_frame resample f (tw, th) true =
          resample f (thumbnail_size f.width f.height tw th).1
            (thumbnail_size f.width f.height tw th).2 := by
      simp only [resize_frame, if_true]
      rw [if_neg]
      exact hfit
    rw [hstep]
    rw [(hres f _ _).1, (hres f _ _).2]
    exact ⟨hthumb.1, hthumb.2, fun hcon => absurd hcon hfit⟩

/-! ## Frame converter claim theorems -/

/-- C3 counterexample: a 128×128 input frame with the default 256×256
configured target leaves `optimize_for_display` still at 128×128 — the
aspect-preserving thumbnail resize never enlarges — so the output does
not have the configured target resolution. -/
theorem optimize_for_display_not_target :
    ¬ ((optimize_for_display constResample 256 256 small_frame (6/5) (11/10)
          true).height = 256 ∧
       (optimize_for_display constResample 256 256 small_frame (6/5) (11/10)
          true).width = 256) := by
  intro hcon
  have hr : resize_frame constResample small_frame (256, 256) true =
      small_frame :=
    resize_frame_of_fits constResample small_frame 256 256
      ⟨by decide, by decide⟩
  have h128 : (optimize_for_display constResample 256 256 small_frame (6/5)
      (11/10) true).height = 128 := by
    rw [(optimize_for_display_dims constResample 256 256 small_frame (6/5)
      (11/10) true).2, hr]
    rfl
  have h256 := hcon.1
  rw [h128] at h256
  exact absurd h256 (by norm_num)

/-- C3 amended: for every input frame (of positive resolution) and
target at least 1×1, the output of `optimize_for_display` fits within
the configured target resolution (width ≤ `fan_resolution_width`,
height ≤ `fan_resolution_height`; 3 channels by construction), and an
input that already fits inside the target keeps its input resolution
(the thumbnail resize never enlarges); the output equals the target
resolution only when the thumbnail computation happens to produce it. -/
theorem optimize_for_display_fits (resample : Frame → ℕ → ℕ → Frame)
    (hres : ∀ f w h, (resample f w h).width = w ∧ (resample f w h).height = h)
    (tw th : ℕ) (htw : 1 ≤ tw) (hth : 1 ≤ th) (f : Frame)
    (hw : 1 ≤ f.width) (hh : 1 ≤ f.height) (bf cf : ℚ) (sh : Bool) :
    (optimize_for_display resample tw th f bf cf sh).width ≤ tw ∧
    (optimize_for_display resample tw th f bf cf sh).height ≤ th ∧
    (f.width ≤ tw ∧ f.height ≤ th →
      (optimize_for_display resample tw th f bf cf sh).width = f.width ∧
      (optimize_for_display resample tw th f bf cf sh).height = f.height) := by
  have hdims := optimize_for_display_dims resample tw th f bf cf sh
  have hsz := resize_frame_dims resample hres f tw th htw hth hw hh
  refine ⟨?_, ?_, ?_⟩
  · rw [hdims.1]
    exact hsz.1
  · rw [hdims.2]
    exact hsz.2.1
  · intro hfit
    rw [hdims.1, hdims.2, hsz.2.2 hfit]
    exact ⟨rfl, rfl⟩

/-- Witness for C3 (amended) at a 300×200 frame and 256×256 target. -/
theorem optimize_for_display_fits_w :
    (optimize_for_display constResample 256 256 big_frame (6/5) (11/10)
      true).width ≤ 256 ∧
    (optimize_for_display constResample 256 256 big_frame (6/5) (11/10)
      true).height ≤ 256 := by
  have h := optimize_for_display_fits constResample
    (fun f w h => ⟨rfl, rfl⟩) 256 256 (by norm_num) (by norm_num) big_frame
    (by decide) (by decide) (6/5) (11/10) true
  exact ⟨h.1, h.2.1⟩

theorem enhance_brightness_one (f : Frame) : enhance_brightness f 1 = f := by
  unfold enhance_brightness blend
  rw [if_neg (by norm_num : ¬((1 : ℚ) = 0)), if_pos rfl]

theorem enhance_contrast_one (f : Frame) : enhance_contrast f 1 = f := by
  unfold enhance_contrast blend
  rw [if_neg (by norm_num : ¬((1 : ℚ) = 0)), if_pos rfl]

theorem optimize_id_factors (resample : Frame → ℕ → ℕ → Frame) (tw th : ℕ)
    (f : Frame) :
    optimize_for_display resample tw th f 1 1 false =
      resize_frame resample f (tw, th) true := by
  simp only [optimize_for_display]
  rw [enhance_brightness_one, enhance_contrast_one]
  rfl

/-- C8: with brightness factor 1.0, contrast factor 1.0 and no
sharpening, `optimize_for_display` is idempotent — factor 1.0 is the
identity for brightness and contrast (PIL blend copies the image at
alpha 1), so the pass reduces to the thumbnail resize, whose output
already fits the target and is returned unchanged on a second pass.  The
equality is exact, not merely within rounding. -/
theorem optimize_for_display_idem (resample : Frame → ℕ → ℕ → Frame)
    (hres : ∀ f w h, (resample f w h).width = w ∧ (resample f w h).height = h)
    (tw th : ℕ) (htw : 1 ≤ tw) (hth : 1 ≤ th) (f : Frame)
    (hw : 1 ≤ f.width) (hh : 1 ≤ f.height) :
    optimize_for_display resample tw th
      (optimize_for_display resample tw th f 1 1 false) 1 1 false =
    optimize_for_display resample tw th f 1 1 false := by
  rw [optimize_id_factors resample tw th f]
  rw [optimize_id_factors resample tw th (resize_frame resample f (tw, th) true)]
  have hsz := resize_frame_dims resample hres f tw th htw hth hw hh
  exact resize_frame_of_fits resample _ tw th ⟨hsz.1, hsz.2.1⟩

/-- Witness for C8 at a 300×200 frame and 256×256 target. -/
theorem optimize_for_display_idem_w :
    optimize_for_display constResample 256 256
      (optimize_for_display constResample 256 256 big_frame 1 1 false)
      1 1 false =
    optimize_for_display constResample 256 256 big_frame 1 1 false :=
  optimize_for_display_idem constResample (fun f w h => ⟨rfl, rfl⟩) 256 256
    (by norm_num) (by norm_num) big_frame (by decide) (by decide)

/-! ## Animation orchestrator claim theorems -/

/-- C6 counterexample: the orchestrator computes the frame count with
Python `int(...)` (truncation), not `round(...)`: at frame rate 3 and
duration 0.5 it generates `int(1.5) = 1` frame, while the claimed
formula gives `round(1.5) = 2`. -/
theorem animate_frame_count_not_round :
    ¬ ((animate_response_frames constResample 256 256 constRender 3 sampleText
          (1/2)).length = (round ((3 : ℚ) * (1/2))).toNat) := by
  intro hcon
  have hround : round ((3 : ℚ) * (1/2)) = 2 := by
    rw [round_eq]
    norm_num
  have hlen : (animate_response_frames constResample 256 256 constRender 3
      sampleText (1/2)).length = 1 := by
    simp only [animate_response_frames, List.length_map, List.length_range]
    norm_num [py_int]
  rw [hlen, hround] at hcon
  omega

/-- C6 amended: the orchestrator generates exactly
`frameCount = int(frameRate × duration)` frames (truncation, not
rounding), rendering frame `i` at angle `(360 / frameCount) × i` and
passing it through `optimize_for_display` (source defaults) before
delivery; in particular for frameRate = 10 and duration = 1.0 it
generates exactly 10 frames at angles 0, 36, 72, …, 324 degrees. -/
theorem animate_response_spec (resample : Frame → ℕ → ℕ → Frame) (tw th : ℕ)
    (render : String → ℚ → Frame) (frame_rate : ℕ) (text : String)
    (duration : ℚ) :
    (animate_response_frames resample tw th render frame_rate text
      duration).length = (py_int ((frame_rate : ℚ) * duration)).toNat ∧
    (∀ i, i < (py_int ((frame_rate : ℚ) * duration)).toNat →
      (animate_response_frames resample tw th render frame_rate text
        duration).get? i =
        some (optimize_for_display resample tw th
          (render text
            ((360 / ((py_int ((frame_rate : ℚ) * duration) : ℤ) : ℚ)) *
              (i : ℚ))) (6/5) (11/10) true)) ∧
    ((animate_response_frames resample tw th render 10 text 1).length = 10 ∧
      ∀ i, i < 10 →
        (animate_response_frames resample tw th render 10 text 1).get? i =
          some (optimize_for_display resample tw th
            (render text (36 * (i : ℚ))) (6/5) (11/10) true)) := by
  have hget : ∀ (fr : ℕ) (d : ℚ) i, i < (py_int ((fr : ℚ) * d)).toNat →
      (animate_response_frames resample tw th render fr text d).get? i =
        some (optimize_for_display resample tw th
          (render text
            ((360 / ((py_int ((fr : ℚ) * d) : ℤ) : ℚ)) * (i : ℚ)))
          (6/5) (11/10) true) := by
    intro fr d i hi
    simp only [animate_response_frames]
    rw [List.get?_map, List.get?_range hi]
    rfl
  have hpy10 : py_int (((10 : ℕ) : ℚ) * 1) = 10 := by
    norm_num [py_int]
  refine ⟨?_, hget frame_rate duration, ?_, ?_⟩
  · simp only [animate_response_frames, List.length_map, List.length_range]
  · simp only [animate_response_frames, List.length_map, List.length_range,
      hpy10]
    rfl
  · intro i hi
    have h := hget 10 1 i (by rw [hpy10]; exact hi)
    rw [h]
    have hang : (360 / ((py_int (((10 : ℕ) : ℚ) * 1) : ℤ) : ℚ)) = 36 := by
      rw [hpy10]
      norm_num
    rw [hang]

/-- Witness for C6 (amended) at frame rate 10, duration 1, frame index 3
(angle 108 = 36 × 3 degrees). -/
theorem animate_response_spec_w :
    (animate_response_frames constResample 256 256 constRender 10 sampleText
      1).length = 10 ∧
    (animate_response_frames constResample 256 256 constRender 10 sampleText
      1).get? 3 =
      some (optimize_for_display constResample 256 256
        (constRender sampleText (36 * ((3 : ℕ) : ℚ))) (6/5) (11/10) true) := by
  have h := animate_response_spec constResample 256 256 constRender 10
    sampleText 1
  exact ⟨h.2.2.1, h.2.2.2 3 (by norm_num)⟩

end HoloChat
